import Mathlib

/-!
Verification of the Shark/remora cblas trmv dispatch layer
(src/include/shark/LinAlg/BLAS/kernels/cblas/trmv.hpp) and of the
Normalizer model (src/include/shark/Models/Normalizer.h), as a shallow
embedding in Lean 4.

Machine scalars (float, double and their complex variants) are idealised
as exact rationals; the four C++ element types are kept apart as symbolic
tags where the dispatch logic distinguishes them.  `SIZE_CHECK` is the
library's abort-style assertion; a function whose C++ original contains a
`SIZE_CHECK` is embedded as an `Option`-valued function returning `none`
exactly when the assertion would fire.
-/

/-! ## CBLAS enumerations (from cblas.h, used by trmv.hpp) -/

/-- CBLAS_ORDER enumeration. -/
inductive CBLAS_ORDER
  | CblasRowMajor
  | CblasColMajor
  deriving DecidableEq, Repr

/-- CBLAS_UPLO enumeration. -/
inductive CBLAS_UPLO
  | CblasUpper
  | CblasLower
  deriving DecidableEq, Repr

/-- CBLAS_TRANSPOSE enumeration. -/
inductive CBLAS_TRANSPOSE
  | CblasNoTrans
  | CblasTrans
  | CblasConjTrans
  deriving DecidableEq, Repr

/-- CBLAS_DIAG enumeration. -/
inductive CBLAS_DIAG
  | CblasNonUnit
  | CblasUnit
  deriving DecidableEq, Repr

/-! ## Compile-time trait tags

The container library attaches a storage-kind tag and an element type to
every container type.  `dense_tag` is the one storage kind the optimized
path accepts; every other storage kind (sparse, packed, ...) is folded
into `other_storage`, indexed so that distinct non-dense kinds stay
distinct.  Likewise the four natively supported element types are explicit
constructors and all remaining C++ element types are `other_type`. -/

/-- Storage-kind tag of a container type (remora storage tags). -/
inductive StorageKind
  | dense_tag
  | other_storage (id : Nat)
  deriving DecidableEq, Repr

/-- Element type of a container, as the dispatch layer distinguishes them:
the four natively supported scalar types, and everything else. -/
inductive CppType
  | float
  | double
  | complex_float
  | complex_double
  | other_type (id : Nat)
  deriving DecidableEq, Repr

/-- The compile-time traits of a container type that
`has_optimized_trmv` inspects: `M::storage_type::storage_tag` and
`M::value_type` (trmv.hpp lines 158-165). -/
structure ContainerTraits where
  storage_tag : StorageKind
  value_type : CppType
  deriving DecidableEq, Repr

/-- `optimized_trmv_detail` (trmv.hpp lines 124-156): the primary template
answers `false_type`; four explicit specializations — (dense, dense) with
both element types `double`, `float`, `std::complex<double>` or
`std::complex<float>` — answer `true_type`. -/
def optimized_trmv_detail : StorageKind → StorageKind → CppType → CppType → Bool
  | .dense_tag, .dense_tag, .double, .double => true
  | .dense_tag, .dense_tag, .float, .float => true
  | .dense_tag, .dense_tag, .complex_double, .complex_double => true
  | .dense_tag, .dense_tag, .complex_float, .complex_float => true
  | _, _, _, _ => false

/-- `has_optimized_trmv` (trmv.hpp lines 158-165): queries
`optimized_trmv_detail` on the storage tags and value types of the two
container types. -/
def has_optimized_trmv (M1 M2 : ContainerTraits) : Bool :=
  optimized_trmv_detail M1.storage_tag M2.storage_tag M1.value_type M2.value_type

/-- Claim C1: `has_optimized_trmv` (via `optimized_trmv_detail`) answers
true for exactly the four combinations with both operands dense-storage
and identical element type among float, double, complex float and
complex double; every other combination — asymmetric element types,
non-dense storage, unsupported element types — answers false, the
unspecialized default. -/
theorem has_optimized_trmv_iff (M1 M2 : ContainerTraits) :
    has_optimized_trmv M1 M2 = true ↔
      M1.storage_tag = StorageKind.dense_tag ∧
      M2.storage_tag = StorageKind.dense_tag ∧
      M1.value_type = M2.value_type ∧
      (M1.value_type = CppType.float ∨ M1.value_type = CppType.double ∨
       M1.value_type = CppType.complex_float ∨
       M1.value_type = CppType.complex_double) := by
  obtain ⟨s1, t1⟩ := M1
  obtain ⟨s2, t2⟩ := M2
  unfold has_optimized_trmv
  cases s1 <;> cases s2 <;> cases t1 <;> cases t2 <;>
    simp_all [optimized_trmv_detail]

/-! ## Operand views and storage descriptors

The adapter template receives a `matrix_expression` and a
`vector_expression` over dense cpu containers.  The features the adapter
reads are the sizes (`size1`, `size2`, `size`), the orientation type
(`MatA::orientation`, mapped through `storage_order`) and the raw storage
descriptor (`values` base pointer plus `leading_dimension` resp.
`stride`).  A buffer behind a base pointer is embedded as a `List`;
reading index `k` of the buffer is `List.getD k 0`. -/

/-- remora orientation tag of a dense matrix type. -/
inductive OrientationTag
  | row_major
  | column_major
  deriving DecidableEq, Repr

/-- `storage_order<orientation>::value` (cblas_inc.hpp): `row_major`
maps to `CblasRowMajor`, `column_major` to `CblasColMajor`. -/
def storage_order : OrientationTag → CBLAS_ORDER
  | .row_major => CBLAS_ORDER.CblasRowMajor
  | .column_major => CBLAS_ORDER.CblasColMajor

/-- Dense matrix view: logical sizes, orientation and underlying dense
storage (buffer plus leading dimension). -/
structure MatrixView (α : Type) where
  size1 : Nat
  size2 : Nat
  orientation : OrientationTag
  values : List α
  leading_dimension : Nat
  deriving DecidableEq, Repr

/-- Dense vector view: logical size and underlying dense storage
(buffer plus stride). -/
structure VectorView (α : Type) where
  size : Nat
  values : List α
  stride : Nat
  deriving DecidableEq, Repr

/-- Storage descriptor of a dense matrix (`A().raw_storage()`). -/
structure dense_matrix_storage (α : Type) where
  values : List α
  leading_dimension : Nat
  deriving DecidableEq, Repr

/-- Storage descriptor of a dense vector (`x().raw_storage()`). -/
structure dense_vector_storage (α : Type) where
  values : List α
  stride : Nat
  deriving DecidableEq, Repr

/-- `A().raw_storage()` for a dense matrix view. -/
def MatrixView.raw_storage (A : MatrixView α) : dense_matrix_storage α :=
  ⟨A.values, A.leading_dimension⟩

/-- `x().raw_storage()` for a dense vector view. -/
def VectorView.raw_storage (x : VectorView α) : dense_vector_storage α :=
  ⟨x.values, x.stride⟩

/-- The C++ conversion `std::size_t → int`: two's-complement wrap-around
into the 32-bit signed range.  This is what the unchecked cast `(int)n`
(and the implicit conversions of `leading_dimension` and `stride` to the
`int` parameters of the typed overloads) computes. -/
def toInt32 (n : Nat) : Int :=
  (((n + 2 ^ 31) % 2 ^ 32 : Nat) : Int) - 2 ^ 31

theorem toInt32_of_le (n : Nat) (h : n ≤ 2 ^ 31 - 1) : toInt32 n = (n : Int) := by
  unfold toInt32
  rw [Nat.mod_eq_of_lt (by omega)]
  push_cast
  omega

theorem toInt32_toNat (n : Nat) (h : n ≤ 2 ^ 31 - 1) : (toInt32 n).toNat = n := by
  rw [toInt32_of_le n h]
  exact Int.toNat_natCast n

/-! ## The four typed cblas overloads (trmv.hpp lines 40-99)

Each overload forwards its arguments verbatim to the matching cblas
entry point (`cblas_strmv`, `cblas_dtrmv`, `cblas_ctrmv`, `cblas_ztrmv`).
The native backend is external to the repository, so a call to it is
embedded as a record of the entry point reached and every argument
passed. -/

/-- The four native entry points. -/
inductive CblasEntry
  | cblas_strmv
  | cblas_dtrmv
  | cblas_ctrmv
  | cblas_ztrmv
  deriving DecidableEq, Repr

/-- One call into the native backend: the entry point and the full
argument list of the cblas trmv signature. -/
structure CblasCall (α : Type) where
  entry : CblasEntry
  Order : CBLAS_ORDER
  uplo : CBLAS_UPLO
  transA : CBLAS_TRANSPOSE
  unit : CBLAS_DIAG
  N : Int
  A : List α
  lda : Int
  X : List α
  incX : Int
  deriving DecidableEq, Repr

/-- trmv.hpp lines 40-53: the `float` overload, forwarding to
`cblas_strmv`. -/
def trmv_float (Order : CBLAS_ORDER) (uplo : CBLAS_UPLO)
    (transA : CBLAS_TRANSPOSE) (unit : CBLAS_DIAG) (N : Int)
    (A : List α) (lda : Int) (X : List α) (incX : Int) : CblasCall α :=
  ⟨CblasEntry.cblas_strmv, Order, uplo, transA, unit, N, A, lda, X, incX⟩

/-- trmv.hpp lines 55-68: the `double` overload, forwarding to
`cblas_dtrmv`. -/
def trmv_double (Order : CBLAS_ORDER) (uplo : CBLAS_UPLO)
    (transA : CBLAS_TRANSPOSE) (unit : CBLAS_DIAG) (N : Int)
    (A : List α) (lda : Int) (X : List α) (incX : Int) : CblasCall α :=
  ⟨CblasEntry.cblas_dtrmv, Order, uplo, transA, unit, N, A, lda, X, incX⟩

/-- trmv.hpp lines 71-84: the `std::complex<float>` overload, forwarding
to `cblas_ctrmv`. -/
def trmv_complex_float (Order : CBLAS_ORDER) (uplo : CBLAS_UPLO)
    (transA : CBLAS_TRANSPOSE) (unit : CBLAS_DIAG) (N : Int)
    (A : List α) (lda : Int) (X : List α) (incX : Int) : CblasCall α :=
  ⟨CblasEntry.cblas_ctrmv, Order, uplo, transA, unit, N, A, lda, X, incX⟩

/-- trmv.hpp lines 86-99: the `std::complex<double>` overload, forwarding
to `cblas_ztrmv`. -/
def trmv_complex_double (Order : CBLAS_ORDER) (uplo : CBLAS_UPLO)
    (transA : CBLAS_TRANSPOSE) (unit : CBLAS_DIAG) (N : Int)
    (A : List α) (lda : Int) (X : List α) (incX : Int) : CblasCall α :=
  ⟨CblasEntry.cblas_ztrmv, Order, uplo, transA, unit, N, A, lda, X, incX⟩

/-- The element type of the operands of one adapter instantiation.  The
adapter is reached only when `has_optimized_trmv` answered true, so the
element type is one of the four supported scalars; C++ overload
resolution on this type selects which typed overload the adapter's
inner `trmv(...)` call binds to. -/
inductive ScalarType
  | float
  | double
  | complex_float
  | complex_double
  deriving DecidableEq, Repr

/-- Which native entry point the overload selected by a given element
type forwards to. -/
def entry_of : ScalarType → CblasEntry
  | .float => CblasEntry.cblas_strmv
  | .double => CblasEntry.cblas_dtrmv
  | .complex_float => CblasEntry.cblas_ctrmv
  | .complex_double => CblasEntry.cblas_ztrmv

/-- The adapter template `trmv<upper, unit>(A, x, std::true_type)`
(trmv.hpp lines 101-122).  The two `SIZE_CHECK`s become guards returning
`none`; otherwise the adapter builds the enumeration arguments, extracts
both raw storage descriptors and issues the single overload call
selected by the element type. -/
def trmv (t : ScalarType) (upper unit : Bool)
    (A : MatrixView α) (x : VectorView α) : Option (CblasCall α) :=
  if x.size = A.size2 then
    if A.size2 = A.size1 then
      let n := A.size1
      let cblasUnit := if unit then CBLAS_DIAG.CblasUnit else CBLAS_DIAG.CblasNonUnit
      let cblasUplo := if upper then CBLAS_UPLO.CblasUpper else CBLAS_UPLO.CblasLower
      let stor_ord := storage_order A.orientation
      let storageA := A.raw_storage
      let storagex := x.raw_storage
      some (match t with
        | .float =>
            trmv_float stor_ord cblasUplo CBLAS_TRANSPOSE.CblasNoTrans cblasUnit
              (toInt32 n) storageA.values (toInt32 storageA.leading_dimension)
              storagex.values (toInt32 storagex.stride)
        | .double =>
            trmv_double stor_ord cblasUplo CBLAS_TRANSPOSE.CblasNoTrans cblasUnit
              (toInt32 n) storageA.values (toInt32 storageA.leading_dimension)
              storagex.values (toInt32 storagex.stride)
        | .complex_float =>
            trmv_complex_float stor_ord cblasUplo CBLAS_TRANSPOSE.CblasNoTrans cblasUnit
              (toInt32 n) storageA.values (toInt32 storageA.leading_dimension)
              storagex.values (toInt32 storagex.stride)
        | .complex_double =>
            trmv_complex_double stor_ord cblasUplo CBLAS_TRANSPOSE.CblasNoTrans cblasUnit
              (toInt32 n) storageA.values (toInt32 storageA.leading_dimension)
              storagex.values (toInt32 storagex.stride))
    else none
  else none

/-- Shared description of the call the adapter issues when both shape
checks pass. -/
theorem trmv_some (t : ScalarType) (upper unit : Bool)
    (A : MatrixView α) (x : VectorView α)
    (h1 : x.size = A.size2) (h2 : A.size2 = A.size1) :
    trmv t upper unit A x = some
      ⟨entry_of t, storage_order A.orientation,
       (if upper then CBLAS_UPLO.CblasUpper else CBLAS_UPLO.CblasLower),
       CBLAS_TRANSPOSE.CblasNoTrans,
       (if unit then CBLAS_DIAG.CblasUnit else CBLAS_DIAG.CblasNonUnit),
       toInt32 A.size1, A.raw_storage.values,
       toInt32 A.raw_storage.leading_dimension,
       x.raw_storage.values, toInt32 x.raw_storage.stride⟩ := by
  unfold trmv
  rw [if_pos h1, if_pos h2]
  cases t <;>
    simp [trmv_float, trmv_double, trmv_complex_float, trmv_complex_double, entry_of]

/-! ## Concrete example operands (used by the witnesses and examples) -/

/-- Row-major upper-triangular 2x2 example matrix [[2,3],[0,4]]. -/
def exA : MatrixView ℚ := ⟨2, 2, OrientationTag.row_major, [2, 3, 0, 4], 2⟩

/-- The same logical matrix stored column-major (buffer [2,0,3,4]). -/
def colA : MatrixView ℚ := ⟨2, 2, OrientationTag.column_major, [2, 0, 3, 4], 2⟩

/-- Example vector [1,1] of stride 1. -/
def exX : VectorView ℚ := ⟨2, [1, 1], 1⟩

/-- A 3x3 identity matrix view. -/
def exA3 : MatrixView ℚ := ⟨3, 3, OrientationTag.row_major, [1, 0, 0, 0, 1, 0, 0, 0, 1], 3⟩

/-- A length-4 vector view, shape-incompatible with `exA3`. -/
def exX4 : VectorView ℚ := ⟨4, [1, 1, 1, 1], 1⟩

/-- The call the adapter issues on `exA`/`exX` for element type double. -/
def exCallRow : CblasCall ℚ :=
  ⟨CblasEntry.cblas_dtrmv, CBLAS_ORDER.CblasRowMajor, CBLAS_UPLO.CblasUpper,
   CBLAS_TRANSPOSE.CblasNoTrans, CBLAS_DIAG.CblasNonUnit, 2, [2, 3, 0, 4], 2, [1, 1], 1⟩

/-! ## Claims C2, C3, C4, C10 about the adapter -/

/-- Claim C2: whenever the optimized-path adapter runs (both shape checks
pass), it maps `upper` to CblasUpper/CblasLower, `unit` to
CblasUnit/CblasNonUnit, the matrix orientation to the native order
enumeration, and issues exactly one call — to the entry point matched to
the element type — passing the dimension and the storage descriptors
(matrix base buffer with leading dimension, vector base buffer with
stride) extracted from the operand views. -/
theorem trmv_adapter_native_call (t : ScalarType) (upper unit : Bool)
    (A : MatrixView ℚ) (x : VectorView ℚ)
    (h1 : x.size = A.size2) (h2 : A.size2 = A.size1) :
    trmv t upper unit A x = some
      ⟨entry_of t, storage_order A.orientation,
       (if upper then CBLAS_UPLO.CblasUpper else CBLAS_UPLO.CblasLower),
       CBLAS_TRANSPOSE.CblasNoTrans,
       (if unit then CBLAS_DIAG.CblasUnit else CBLAS_DIAG.CblasNonUnit),
       toInt32 A.size1, A.raw_storage.values,
       toInt32 A.raw_storage.leading_dimension,
       x.raw_storage.values, toInt32 x.raw_storage.stride⟩ :=
  trmv_some t upper unit A x h1 h2

/-- Witness for C2 at the concrete example operands. -/
theorem trmv_adapter_native_call_witness :
    trmv ScalarType.double true false exA exX = some
      ⟨entry_of ScalarType.double, storage_order exA.orientation,
       (if true then CBLAS_UPLO.CblasUpper else CBLAS_UPLO.CblasLower),
       CBLAS_TRANSPOSE.CblasNoTrans,
       (if false then CBLAS_DIAG.CblasUnit else CBLAS_DIAG.CblasNonUnit),
       toInt32 exA.size1, exA.raw_storage.values,
       toInt32 exA.raw_storage.leading_dimension,
       exX.raw_storage.values, toInt32 exX.raw_storage.stride⟩ :=
  trmv_adapter_native_call ScalarType.double true false exA exX rfl rfl

/-- Claim C3: a violation of either shape precondition (vector size must
equal the matrix column count; the matrix must be square) makes the
adapter fail its abort-style assertion before any native call is
issued. -/
theorem trmv_adapter_shape_guard (t : ScalarType) (upper unit : Bool)
    (A : MatrixView ℚ) (x : VectorView ℚ)
    (h : ¬(x.size = A.size2 ∧ A.size2 = A.size1)) :
    trmv t upper unit A x = none := by
  unfold trmv
  by_cases h1 : x.size = A.size2
  · rw [if_pos h1, if_neg fun h2 => h ⟨h1, h2⟩]
  · rw [if_neg h1]

/-- Witness for C3: a 3x3 matrix against a length-4 vector aborts. -/
theorem trmv_adapter_shape_guard_witness :
    trmv ScalarType.double true false exA3 exX4 = none :=
  trmv_adapter_shape_guard ScalarType.double true false exA3 exX4 (by decide)

/-- Claim C4: every call the adapter issues carries the fixed transpose
argument CblasNoTrans, for all template parameters and operands. -/
theorem trmv_adapter_no_trans (t : ScalarType) (upper unit : Bool)
    (A : MatrixView ℚ) (x : VectorView ℚ) (c : CblasCall ℚ)
    (h : trmv t upper unit A x = some c) :
    c.transA = CBLAS_TRANSPOSE.CblasNoTrans := by
  by_cases h1 : x.size = A.size2
  · by_cases h2 : A.size2 = A.size1
    · rw [trmv_some t upper unit A x h1 h2] at h
      injection h with h
      subst h
      rfl
    · simp [trmv, h1, h2] at h
  · simp [trmv, h1] at h

/-- Witness for C4 at the concrete example operands. -/
theorem trmv_adapter_no_trans_witness :
    exCallRow.transA = CBLAS_TRANSPOSE.CblasNoTrans :=
  trmv_adapter_no_trans ScalarType.double true false exA exX exCallRow (by decide)

/-- The dimension argument of an issued call, when one was issued. -/
def callDim (o : Option (CblasCall α)) : Option Int :=
  o.map CblasCall.N

/-- Claim C10: the adapter converts the matrix dimension with the
unchecked cast `(int)n`: whenever the shape checks pass and the dimension
is at most 2^31 - 1, the native routine receives exactly the matrix
dimension; and no further check guards the cast — the call is issued for
every dimension that passes the shape checks. -/
theorem trmv_dimension_cast :
    (∀ (t : ScalarType) (upper unit : Bool) (A : MatrixView ℚ) (x : VectorView ℚ),
        x.size = A.size2 → A.size2 = A.size1 → A.size1 ≤ 2 ^ 31 - 1 →
        callDim (trmv t upper unit A x) = some (A.size1 : Int)) ∧
    (∀ (t : ScalarType) (upper unit : Bool) (A : MatrixView ℚ) (x : VectorView ℚ),
        x.size = A.size2 → A.size2 = A.size1 →
        (trmv t upper unit A x).isSome = true) := by
  constructor
  · intro t upper unit A x h1 h2 hn
    rw [callDim, trmv_some t upper unit A x h1 h2]
    rw [Option.map_some']
    rw [show (toInt32 A.size1 : Int) = CblasCall.N
        ⟨entry_of t, storage_order A.orientation,
         (if upper then CBLAS_UPLO.CblasUpper else CBLAS_UPLO.CblasLower),
         CBLAS_TRANSPOSE.CblasNoTrans,
         (if unit then CBLAS_DIAG.CblasUnit else CBLAS_DIAG.CblasNonUnit),
         toInt32 A.size1, A.raw_storage.values,
         toInt32 A.raw_storage.leading_dimension,
         x.raw_storage.values, toInt32 x.raw_storage.stride⟩ from rfl]
    rw [toInt32_of_le A.size1 hn]
  · intro t upper unit A x h1 h2
    rw [trmv_some t upper unit A x h1 h2]
    rfl

/-- Witness for C10 at the concrete example operands. -/
theorem trmv_dimension_cast_witness :
    callDim (trmv ScalarType.double true false exA exX) = some (2 : Int) ∧
    (trmv ScalarType.double true false exA exX).isSome = true :=
  ⟨trmv_dimension_cast.1 ScalarType.double true false exA exX rfl rfl (by decide),
   trmv_dimension_cast.2 ScalarType.double true false exA exX rfl rfl⟩

/-! ## Semantic model of the native backend and the fallback kernel

The native cblas routines and the repository's generic fallback kernel
are both outside src/ (src holds only the binding); their contracts are
fixed by the spec and modelled here.  Scalars are idealised as exact
rationals, so "identical up to floating-point rounding" becomes
equality. -/

/-- Buffer read of stored entry (i, j) through a dense matrix storage
descriptor, following the cblas order convention: row-major stores entry
(i, j) at offset `i * lda + j`, column-major at `j * lda + i`. -/
def cblasEntryElem (Order : CBLAS_ORDER) (Av : List ℚ) (lda i j : Nat) : ℚ :=
  match Order with
  | .CblasRowMajor => Av.getD (i * lda + j) 0
  | .CblasColMajor => Av.getD (j * lda + i) 0

/-- Effective entry under the diag flag: with CblasUnit the diagonal is
taken as 1 and never read from the buffer. -/
def cblasDiagElem (Order : CBLAS_ORDER) (diag : CBLAS_DIAG)
    (Av : List ℚ) (lda i j : Nat) : ℚ :=
  if i = j ∧ diag = CBLAS_DIAG.CblasUnit then 1
  else cblasEntryElem Order Av lda i j

/-- Effective entry under the uplo flag: entries strictly outside the
declared triangle are 0 and never read. -/
def cblasTriElem (Order : CBLAS_ORDER) (uplo : CBLAS_UPLO) (diag : CBLAS_DIAG)
    (Av : List ℚ) (lda i j : Nat) : ℚ :=
  match uplo with
  | .CblasUpper => if i ≤ j then cblasDiagElem Order diag Av lda i j else 0
  | .CblasLower => if j ≤ i then cblasDiagElem Order diag Av lda i j else 0

/-- Effective entry of op(A): under a transpose flag the stored triangular
matrix is read transposed (conjugation is the identity on the rational
idealisation of the scalars). -/
def cblasOpElem (Order : CBLAS_ORDER) (uplo : CBLAS_UPLO)
    (transA : CBLAS_TRANSPOSE) (diag : CBLAS_DIAG)
    (Av : List ℚ) (lda i j : Nat) : ℚ :=
  match transA with
  | .CblasNoTrans => cblasTriElem Order uplo diag Av lda i j
  | .CblasTrans => cblasTriElem Order uplo diag Av lda j i
  | .CblasConjTrans => cblasTriElem Order uplo diag Av lda j i

/-- Modelled from the spec: the native backend entry points
(cblas_strmv / cblas_dtrmv / cblas_ctrmv / cblas_ztrmv) are external to
the repository; spec section 6 fixes their contract — given the order,
uplo, transpose and diag flags, the dimension and the two storage
descriptors, perform the in-place triangular multiply `x := op(A)·x`.
`cblasRunModel` returns the logical result vector (the transformed
vector operand, component i living at buffer offset `i * incX`). -/
def cblasRunModel (c : CblasCall ℚ) : List ℚ :=
  (List.range c.N.toNat).map fun i =>
    ((List.range c.N.toNat).map fun j =>
      cblasOpElem c.Order c.uplo c.transA c.unit c.A c.lda.toNat i j *
        c.X.getD (j * c.incX.toNat) 0).sum

/-- Logical element (i, j) of a dense matrix view: a row-major view
stores it at buffer offset `i * leading_dimension + j`, a column-major
view at `j * leading_dimension + i`. -/
def MatrixView.elem (A : MatrixView ℚ) (i j : Nat) : ℚ :=
  match A.orientation with
  | .row_major => A.values.getD (i * A.leading_dimension + j) 0
  | .column_major => A.values.getD (j * A.leading_dimension + i) 0

/-- Logical element i of a dense vector view (buffer offset
`i * stride`). -/
def VectorView.elem (x : VectorView ℚ) (i : Nat) : ℚ :=
  x.values.getD (i * x.stride) 0

/-- Membership of (i, j) in the declared triangle of the library's
(upper/lower) fill convention. -/
def inTriangle (upper : Bool) (i j : Nat) : Bool :=
  if upper then decide (i ≤ j) else decide (j ≤ i)

/-- Modelled from the spec: the Generic Fallback Kernel (spec section
4.3) is not under src/ (src holds only the cblas binding); the spec fixes
its contract — the same in-place triangular multiply expressed over the
logical views, for any layout, treating entries outside the declared
triangle as zero and, when unit-diagonal is set, the diagonal as 1,
reading neither from storage. -/
def fallbackTrmv (upper unit : Bool) (n : Nat)
    (a : Nat → Nat → ℚ) (x : Nat → ℚ) : List ℚ :=
  (List.range n).map fun i =>
    ((List.range n).map fun j =>
      if inTriangle upper i j then
        (if unit && decide (i = j) then 1 else a i j) * x j
      else 0).sum

/-- Pointwise agreement of the native model's summand with the fallback
kernel's summand, for the flag values the adapter produces. -/
theorem cblas_fallback_elem (upper unit : Bool)
    (A : MatrixView ℚ) (x : VectorView ℚ) (i j : Nat) :
    cblasOpElem (storage_order A.orientation)
        (if upper then CBLAS_UPLO.CblasUpper else CBLAS_UPLO.CblasLower)
        CBLAS_TRANSPOSE.CblasNoTrans
        (if unit then CBLAS_DIAG.CblasUnit else CBLAS_DIAG.CblasNonUnit)
        A.values A.leading_dimension i j * x.values.getD (j * x.stride) 0 =
      (if inTriangle upper i j then
        (if unit && decide (i = j) then 1 else A.elem i j) * x.elem j
      else 0) := by
  cases upper <;> cases unit <;> cases hA : A.orientation <;>
    simp only [cblasOpElem, cblasTriElem, cblasDiagElem, cblasEntryElem,
      inTriangle, MatrixView.elem, VectorView.elem, storage_order, hA,
      Bool.false_eq_true, if_false, if_true, Bool.true_and, Bool.false_and,
      Bool.false_eq, and_true, and_false, ite_mul, zero_mul, if_false_right,
      decide_eq_true_eq, Bool.if_false_left, Bool.and_eq_true] <;>
    split_ifs <;> simp_all <;> omega

/-- Claim C6: for every dense triangular matrix and vector operand of a
supported element type (any of the four, and any flags), the optimized
native path produces exactly the result of the generic fallback kernel
on the same logical operation; the right-hand side does not mention the
element type `t`, so which path the dispatch selected is not observable
in the output. -/
theorem trmv_path_equivalence (t : ScalarType) (upper unit : Bool)
    (A : MatrixView ℚ) (x : VectorView ℚ)
    (h1 : x.size = A.size2) (h2 : A.size2 = A.size1)
    (hn : A.size1 ≤ 2 ^ 31 - 1) (hld : A.leading_dimension ≤ 2 ^ 31 - 1)
    (hs : x.stride ≤ 2 ^ 31 - 1) :
    (trmv t upper unit A x).map cblasRunModel =
      some (fallbackTrmv upper unit A.size1 A.elem x.elem) := by
  rw [trmv_some t upper unit A x h1 h2, Option.map_some']
  refine congrArg Option.some ?_
  unfold cblasRunModel fallbackTrmv
  dsimp only [MatrixView.raw_storage, VectorView.raw_storage]
  rw [toInt32_toNat A.size1 hn, toInt32_toNat A.leading_dimension hld,
      toInt32_toNat x.stride hs]
  refine congrArg (fun f => List.map f (List.range A.size1)) (funext fun i => ?_)
  refine congrArg List.sum
    (congrArg (fun f => List.map f (List.range A.size1)) (funext fun j => ?_))
  exact cblas_fallback_elem upper unit A x i j

/-- Witness for C6 at the concrete example operands. -/
theorem trmv_path_equivalence_witness :
    (trmv ScalarType.double true false exA exX).map cblasRunModel =
      some (fallbackTrmv true false exA.size1 exA.elem exX.elem) :=
  trmv_path_equivalence ScalarType.double true false exA exX rfl rfl
    (by decide) (by decide) (by decide)

/-- Claim C5: the row-major upper-triangular non-unit 2x2 matrix
[[2,3],[0,4]] applied to [1,1] yields [5,4] through the optimized path,
and the same logical matrix stored column-major (with the orientation
flag set accordingly) yields the identical [5,4]. -/
theorem trmv_orientation_example :
    (trmv ScalarType.double true false exA exX).map cblasRunModel = some [5, 4] ∧
    (trmv ScalarType.double true false colA exX).map cblasRunModel = some [5, 4] := by
  constructor <;>
  · rw [trmv_some ScalarType.double true false _ _ rfl rfl, Option.map_some']
    refine congrArg Option.some ?_
    simp only [cblasRunModel, exA, colA, exX, MatrixView.raw_storage,
      VectorView.raw_storage, storage_order, entry_of]
    simp only [toInt32_toNat 2 (by norm_num), toInt32_toNat 1 (by norm_num)]
    norm_num [cblasOpElem, cblasTriElem, cblasDiagElem, cblasEntryElem,
      List.range_succ, List.getD]
    exact ⟨by rw [if_neg (by decide)]; norm_num, by decide⟩

/-! ## The Normalizer model (src/include/shark/Models/Normalizer.h)

A diagonal linear model `x ↦ A x + b`, with the diagonal of A stored as
the vector `m_A` and the offset `b` as `m_b`, added only when
`m_hasOffset` is set.  A batch is a list of rows, one data point per
row (`size1()` is the number of rows, `size2()` the per-point
dimension). -/

/-- The Normalizer's state: fields m_A, m_b, m_hasOffset
(Normalizer.h lines 222-225). -/
structure Normalizer where
  m_A : List ℚ
  m_b : List ℚ
  m_hasOffset : Bool
  deriving DecidableEq, Repr

/-- `Normalizer::hasOffset` (line 123). -/
def Normalizer.hasOffset (m : Normalizer) : Bool :=
  m.m_hasOffset

/-- `Normalizer::diagonal` (line 128). -/
def Normalizer.diagonal (m : Normalizer) : List ℚ :=
  m.m_A

/-- `Normalizer::offset` (line 133). -/
def Normalizer.offset (m : Normalizer) : List ℚ :=
  m.m_b

/-- `Normalizer::inputSize` (line 138): `m_A.size()`. -/
def Normalizer.inputSize (m : Normalizer) : Nat :=
  m.m_A.length

/-- `Normalizer::outputSize` (line 143): `m_A.size()`. -/
def Normalizer.outputSize (m : Normalizer) : Nat :=
  m.m_A.length

/-- `Normalizer::parameterVector` (lines 148-153): `m_A | m_b` (vector
concatenation) with an offset, plain `m_A` without. -/
def Normalizer.parameterVector (m : Normalizer) : List ℚ :=
  if m.hasOffset then m.m_A ++ m.m_b else m.m_A

/-- `Normalizer::numberOfParameters` (lines 166-168). -/
def Normalizer.numberOfParameters (m : Normalizer) : Nat :=
  if m.m_hasOffset then m.m_A.length + m.m_b.length else m.m_A.length

/-- `Normalizer::setParameterVector` (lines 156-163): after the
`SIZE_CHECK` on the length, `m_A` is overwritten with
`subrange(newParameters, 0, dim)` and, when the offset is present, `m_b`
with `subrange(newParameters, dim, 2*dim)`. -/
def Normalizer.setParameterVector (m : Normalizer) (newParameters : List ℚ) :
    Option Normalizer :=
  if newParameters.length = m.numberOfParameters then
    let dim := m.m_A.length
    some ⟨newParameters.take dim,
          if m.hasOffset then (newParameters.drop dim).take dim else m.m_b,
          m.m_hasOffset⟩
  else none

/-- remora `repeat(v, count)`: the count-by-size(v) matrix each of whose
rows is v. -/
def remoraRepeat (v : List ℚ) (count : Nat) : List (List ℚ) :=
  List.replicate count v

/-- remora elementwise product of two matrix expressions
(`operator*`). -/
def elemwiseMul (M1 M2 : List (List ℚ)) : List (List ℚ) :=
  List.zipWith (List.zipWith fun a b => a * b) M1 M2

/-- remora elementwise sum of two matrix expressions (`operator+`). -/
def elemwiseAdd (M1 M2 : List (List ℚ)) : List (List ℚ) :=
  List.zipWith (List.zipWith fun a b => a + b) M1 M2

/-- `Normalizer::eval` (Normalizer.h lines 193-201).  The `SIZE_CHECK`
compares `input.size1()` — the number of rows of the batch — against
`m_A.size()` and becomes the guard; then
`output = input * repeat(m_A, input.size1())` elementwise, and
`repeat(m_b, input.size1())` is added when the offset is present. -/
def Normalizer.eval (m : Normalizer) (input : List (List ℚ)) :
    Option (List (List ℚ)) :=
  if input.length = m.m_A.length then
    let out := elemwiseMul input (remoraRepeat m.m_A input.length)
    if m.hasOffset then some (elemwiseAdd out (remoraRepeat m.m_b input.length))
    else some out
  else none

/-- Claim C7 (code bug, evaluation at the failing input): for the
dimension-2 model with diagonal [2,3] and no offset, the single-row
batch [[1,1]] has per-point dimension 2 equal to the model's dimension,
so the claim says eval produces [[2,3]]; instead eval's `SIZE_CHECK`
compares the number of batch rows (1) against the model dimension (2)
and aborts. -/
theorem normalizer_eval_sizecheck_bug :
    Normalizer.eval ⟨[2, 3], [], false⟩ [[1, 1]] = none :=
  rfl

/-- Claim C8: `parameterVector` has length `numberOfParameters`, and
feeding it back through `setParameterVector` leaves the model — its
diagonal, offset and hasOffset flag — unchanged.  The hypothesis is the
class invariant (every constructor and `setStructure` establishes it)
that with an offset present the two stored vectors have equal length. -/
theorem normalizer_parameter_roundtrip (m : Normalizer)
    (hwf : m.m_hasOffset = true → m.m_b.length = m.m_A.length) :
    m.parameterVector.length = m.numberOfParameters ∧
    m.setParameterVector m.parameterVector = some m := by
  obtain ⟨a, b, off⟩ := m
  cases off
  · simp [Normalizer.parameterVector, Normalizer.numberOfParameters,
      Normalizer.setParameterVector, Normalizer.hasOffset]
  · have hb : b.length = a.length := hwf rfl
    refine ⟨by simp [Normalizer.parameterVector, Normalizer.numberOfParameters,
      Normalizer.hasOffset], ?_⟩
    unfold Normalizer.setParameterVector Normalizer.parameterVector
      Normalizer.numberOfParameters Normalizer.hasOffset
    simp only [if_true]
    rw [if_pos (by simp)]
    rw [List.take_left, List.drop_left]
    rw [← hb, List.take_length]

/-- Witness for C8 at a concrete model. -/
theorem normalizer_parameter_roundtrip_witness :
    (⟨[2, 3], [5, 7], true⟩ : Normalizer).parameterVector.length =
      (⟨[2, 3], [5, 7], true⟩ : Normalizer).numberOfParameters ∧
    (⟨[2, 3], [5, 7], true⟩ : Normalizer).setParameterVector
        (⟨[2, 3], [5, 7], true⟩ : Normalizer).parameterVector =
      some ⟨[2, 3], [5, 7], true⟩ :=
  normalizer_parameter_roundtrip ⟨[2, 3], [5, 7], true⟩ (fun _ => rfl)

/-- Claim C9: for a parameter vector of the right length,
`setParameterVector` succeeds and overwrites only the diagonal and (when
present) the offset: the hasOffset flag, `inputSize`, `outputSize` and
`numberOfParameters` are unchanged, and without an offset `m_b` is
untouched.  The first hypothesis is the class invariant on the stored
vector lengths. -/
theorem normalizer_setParameterVector_frame (m : Normalizer) (p : List ℚ)
    (hwf : m.m_hasOffset = true → m.m_b.length = m.m_A.length)
    (hlen : p.length = m.numberOfParameters) :
    (m.setParameterVector p).map Normalizer.m_hasOffset = some m.m_hasOffset ∧
    (m.setParameterVector p).map Normalizer.inputSize = some m.inputSize ∧
    (m.setParameterVector p).map Normalizer.outputSize = some m.outputSize ∧
    (m.setParameterVector p).map Normalizer.numberOfParameters =
      some m.numberOfParameters ∧
    (m.m_hasOffset = false →
      (m.setParameterVector p).map Normalizer.m_b = some m.m_b) := by
  obtain ⟨a, b, off⟩ := m
  unfold Normalizer.setParameterVector
  rw [if_pos hlen]
  cases off
  · simp only [Normalizer.numberOfParameters, if_false, Bool.false_eq_true] at hlen
    simp [Normalizer.inputSize, Normalizer.outputSize,
      Normalizer.numberOfParameters, Normalizer.hasOffset, hlen]
  · have hb : b.length = a.length := hwf rfl
    simp only [Normalizer.numberOfParameters, if_true] at hlen
    simp [Normalizer.inputSize, Normalizer.outputSize,
      Normalizer.numberOfParameters, Normalizer.hasOffset, hlen, hb]

/-- Witness for C9 at a concrete model and parameter vector. -/
theorem normalizer_setParameterVector_frame_witness :
    ((⟨[2, 3], [5, 7], true⟩ : Normalizer).setParameterVector
        [1, 2, 3, 4]).map Normalizer.m_hasOffset =
      some (⟨[2, 3], [5, 7], true⟩ : Normalizer).m_hasOffset ∧
    ((⟨[2, 3], [5, 7], true⟩ : Normalizer).setParameterVector
        [1, 2, 3, 4]).map Normalizer.inputSize =
      some (⟨[2, 3], [5, 7], true⟩ : Normalizer).inputSize ∧
    ((⟨[2, 3], [5, 7], true⟩ : Normalizer).setParameterVector
        [1, 2, 3, 4]).map Normalizer.outputSize =
      some (⟨[2, 3], [5, 7], true⟩ : Normalizer).outputSize ∧
    ((⟨[2, 3], [5, 7], true⟩ : Normalizer).setParameterVector
        [1, 2, 3, 4]).map Normalizer.numberOfParameters =
      some (⟨[2, 3], [5, 7], true⟩ : Normalizer).numberOfParameters ∧
    ((⟨[2, 3], [5, 7], true⟩ : Normalizer).m_hasOffset = false →
      ((⟨[2, 3], [5, 7], true⟩ : Normalizer).setParameterVector
          [1, 2, 3, 4]).map Normalizer.m_b =
        some (⟨[2, 3], [5, 7], true⟩ : Normalizer).m_b) :=
  normalizer_setParameterVector_frame ⟨[2, 3], [5, 7], true⟩ [1, 2, 3, 4]
    (fun _ => rfl) rfl
